import Mathlib

/-!
# Verification of the ray-serve vLLM gateway (`src/ray-serve/vllm_engine.py`)

A shallow embedding of the request-serving facade in that file:

* the configuration translation loop of `parse_vllm_args` (lines 121-144),
* the lazy facade initialization and request dispatch of
  `VLLMDeployment.create_chat_completion` (lines 58-101),
* the model-listing endpoint `VLLMDeployment.list_models` (lines 104-119).

Python values arriving in the `cli_args` mapping are modelled by `PyValue`;
the asynchronous handlers are modelled twice: once as pure dispatch functions
over an abstract engine outcome, and once as a small-step cooperative
interleaving system whose suspension points are exactly the `await`
expressions of the source.
-/

/-- A Python value as it can occur in the `cli_args : Dict[str, str]` mapping
(the annotation notwithstanding, `build_app` is fed booleans, strings, `None`
and numbers from the deployment descriptor). -/
inductive PyValue where
  | pyBool (b : Bool)
  | pyStr (s : String)
  | pyNone
  | pyInt (n : Int)
deriving DecidableEq

/-- Python `str(value)` on the values of `PyValue`. -/
def pyStrOf : PyValue → String
  | .pyBool true => "True"
  | .pyBool false => "False"
  | .pyStr s => s
  | .pyNone => "None"
  | .pyInt n => toString n

/-- The test `value is True` of `parse_vllm_args` line 136: identity with the
`True` singleton, matched only by the boolean `True`. -/
def isTrueLiteral : PyValue → Bool
  | .pyBool true => true
  | _ => false

/-- The test `value in (None, "None")` of line 138 (Python membership by
equality): true exactly for `None` and the literal string `"None"`. -/
def inNoneTuple (v : PyValue) : Bool :=
  v = PyValue.pyNone ∨ v = PyValue.pyStr "None"

/-- The body of the translation loop of `parse_vllm_args` (lines 134-141) for
one `(key, value)` entry: `value is True` appends the bare flag; a value other
than `None`/`"None"` appends the flag and `str(value)`; otherwise the bare
flag. -/
def emitArg (key : String) (value : PyValue) : List String :=
  if isTrueLiteral value then ["--" ++ key]
  else if ¬ inNoneTuple value then ["--" ++ key, pyStrOf value]
  else ["--" ++ key]

/-- The `arg_strings` list built by the loop of `parse_vllm_args` over
`cli_args.items()` in mapping order (Python dicts iterate in insertion
order). -/
def argStrings (cli_args : List (String × PyValue)) : List String :=
  cli_args.foldl (fun acc kv => acc ++ emitArg kv.1 kv.2) []

theorem argStrings_eq_flatMap (cli_args : List (String × PyValue)) :
    argStrings cli_args = cli_args.flatMap fun kv => emitArg kv.1 kv.2 := by
  suffices h : ∀ (l : List (String × PyValue)) (acc : List String),
      l.foldl (fun acc kv => acc ++ emitArg kv.1 kv.2) acc =
        acc ++ l.flatMap (fun kv => emitArg kv.1 kv.2) by
    simpa using h cli_args []
  intro l
  induction l with
  | nil => intro acc; simp
  | cons kv t ih => intro acc; simp [List.foldl_cons, ih, List.append_assoc]

theorem flag_inj {a b : String} (h : "--" ++ a = "--" ++ b) : a = b := by
  have hd := congrArg String.data h
  simp at hd
  exact String.ext hd

theorem count_emitArg_self (key : String) (value : PyValue)
    (hv : pyStrOf value ≠ "--" ++ key) :
    (emitArg key value).count ("--" ++ key) = 1 := by
  unfold emitArg
  split
  · simp
  · split
    · simp [List.count_cons, hv]
    · simp

theorem count_emitArg_other (key k : String) (v : PyValue) (hk : k ≠ key)
    (hv : pyStrOf v ≠ "--" ++ key) :
    (emitArg k v).count ("--" ++ key) = 0 := by
  have hflag : ("--" ++ k : String) ≠ "--" ++ key := fun h => hk (flag_inj h)
  unfold emitArg
  split
  · simp [List.count_cons, hflag]
  · split
    · simp [List.count_cons, hflag, hv]
    · simp [List.count_cons, hflag]

theorem count_flag_argStrings_zero (cli : List (String × PyValue)) (key : String)
    (hnc : ∀ kv ∈ cli, pyStrOf kv.2 ≠ "--" ++ key)
    (hnm : key ∉ cli.map Prod.fst) :
    (argStrings cli).count ("--" ++ key) = 0 := by
  rw [argStrings_eq_flatMap]
  induction cli with
  | nil => simp
  | cons kv t ih =>
    simp only [List.flatMap_cons, List.count_append]
    have h1 : kv.1 ≠ key := by
      intro h; exact hnm (by simp [h.symm])
    have h2 : pyStrOf kv.2 ≠ "--" ++ key := hnc kv (by simp)
    rw [count_emitArg_other key kv.1 kv.2 h1 h2,
      ih (fun x hx => hnc x (List.mem_cons_of_mem kv hx))
        (fun h => hnm (List.mem_cons_of_mem _ h))]

theorem count_flag_argStrings_one (cli : List (String × PyValue)) (key : String)
    (hnd : (cli.map Prod.fst).Nodup)
    (hnc : ∀ kv ∈ cli, pyStrOf kv.2 ≠ "--" ++ key)
    (hmem : key ∈ cli.map Prod.fst) :
    (argStrings cli).count ("--" ++ key) = 1 := by
  rw [argStrings_eq_flatMap]
  induction cli with
  | nil => simp at hmem
  | cons kv t ih =>
    simp only [List.flatMap_cons, List.count_append]
    rw [List.map_cons] at hmem hnd
    have hnd1 := (List.nodup_cons.mp hnd).1
    have hnd2 := (List.nodup_cons.mp hnd).2
    rcases List.mem_cons.mp hmem with h | h
    · subst h
      have h2 : pyStrOf kv.2 ≠ "--" ++ kv.1 := hnc kv (by simp)
      have hz : (argStrings t).count ("--" ++ kv.1) = 0 :=
        count_flag_argStrings_zero t kv.1
          (fun x hx => hnc x (List.mem_cons_of_mem kv hx)) hnd1
      rw [argStrings_eq_flatMap] at hz
      rw [count_emitArg_self kv.1 kv.2 h2, hz]
    · have h1 : kv.1 ≠ key := by
        intro he
        exact hnd1 (he ▸ h)
      have h2 : pyStrOf kv.2 ≠ "--" ++ key := hnc kv (by simp)
      rw [count_emitArg_other key kv.1 kv.2 h1 h2]
      have := ih hnd2 (fun x hx => hnc x (List.mem_cons_of_mem kv hx)) h
      omega

/-- Validation failures of configuration translation. -/
inductive ConfigurationError where
  | missingRequired (field : String)
deriving DecidableEq

/-- The structured result of flag parsing: the fields the deployment reads
(`parsed_args.response_role`, the model identifier) plus the raw argument
list. -/
structure ParsedArgs where
  model : String
  response_role : String
  raw_args : List String
deriving DecidableEq

/-- One left-to-right scan for a flag and the argument following it, the way
an argument parser consumes `--flag value` pairs. -/
def lookupFlag (flag : String) : List String → Option String
  | f :: v :: rest => if f = flag then some v else lookupFlag flag (v :: rest)
  | _ => none

/-- Modelled from the spec: the flag parser built by vLLM's `make_arg_parser`
(the `parser.parse_args(args=arg_strings)` call of `parse_vllm_args`) is
library code not present in src/.  Per the spec, translation validates the
argument list and fails with a `ConfigurationError` when a required field
(model identifier, response role) is missing, otherwise yielding the
structured configuration.  Rejection of unrecognized flags is not modelled;
no claim depends on it. -/
def parse_args (args : List String) : Except ConfigurationError ParsedArgs :=
  match lookupFlag "--model" args, lookupFlag "--response-role" args with
  | some m, some r => .ok ⟨m, r, args⟩
  | none, _ => .error (.missingRequired "model")
  | some _, none => .error (.missingRequired "response_role")

/-- `parse_vllm_args` (lines 121-144): translate the `cli_args` mapping into
`arg_strings`, then hand the list to the flag parser. -/
def parse_vllm_args (cli_args : List (String × PyValue)) :
    Except ConfigurationError ParsedArgs :=
  parse_args (argStrings cli_args)

/-- The mutable state visible to the translation loop of `parse_vllm_args`:
the input mapping and the `arg_strings` accumulator. -/
structure TranslateState where
  cli_args : List (String × PyValue)
  arg_strings : List String
deriving DecidableEq

/-- One iteration of the loop `for key, value in cli_args.items()`: it only
appends to `arg_strings`, threading the rest of the state unchanged. -/
def translateStep (st : TranslateState) (kv : String × PyValue) : TranslateState :=
  { st with arg_strings := st.arg_strings ++ emitArg kv.1 kv.2 }

/-- `parse_vllm_args` as a state transformer: the call's effect on the input
mapping is made explicit by returning the mapping as the loop left it,
together with the parse result. -/
def parse_vllm_argsRun (cli : List (String × PyValue)) :
    TranslateState × Except ConfigurationError ParsedArgs :=
  let st := cli.foldl translateStep { cli_args := cli, arg_strings := [] }
  (st, parse_args st.arg_strings)

theorem foldl_translateStep_cli_args (l : List (String × PyValue))
    (st : TranslateState) : (l.foldl translateStep st).cli_args = st.cli_args := by
  induction l generalizing st with
  | nil => rfl
  | cons kv t ih => simp [List.foldl_cons, ih, translateStep]

theorem foldl_translateStep_arg_strings (l : List (String × PyValue))
    (st : TranslateState) :
    (l.foldl translateStep st).arg_strings =
      l.foldl (fun acc kv => acc ++ emitArg kv.1 kv.2) st.arg_strings := by
  induction l generalizing st with
  | nil => rfl
  | cons kv t ih => simp [List.foldl_cons, ih, translateStep]

/-- What `await self.openai_serving_chat.create_chat_completion(...)` can
return, per the vLLM serving-chat interface: an `ErrorResponse` with a status
code and message, a buffered `ChatCompletionResponse`, or an async generator
of response chunks. -/
inductive EngineOutcome where
  | errorResponse (code : Nat) (message : String)
  | chatResponse (payload : String)
  | generator (chunks : List String)
deriving DecidableEq

/-- The JSON body handed to `JSONResponse`: `generator.model_dump()` of either
an `ErrorResponse` (carrying its code and message) or a
`ChatCompletionResponse`. -/
inductive ResponseBody where
  | errorBody (code : Nat) (message : String)
  | chatBody (payload : String)
deriving DecidableEq

/-- The transport response returned by the handler: a `JSONResponse` with a
body and status code, or a `StreamingResponse` wrapping the engine outcome
with a media type. -/
inductive TransportResponse where
  | json (body : ResponseBody) (statusCode : Nat)
  | eventStream (content : EngineOutcome) (mediaType : String)
deriving DecidableEq

/-- The dispatch tail of `VLLMDeployment.create_chat_completion`
(lines 92-101): classify the engine outcome.  An `ErrorResponse` becomes a
`JSONResponse` with `status_code=generator.code`; otherwise `request.stream`
selects a `StreamingResponse` with media type `text/event-stream`; otherwise
the outcome is asserted to be a `ChatCompletionResponse` (`Except.error`
models the `assert` raising) and becomes a `JSONResponse` with the default
status 200. -/
def dispatchChatCompletion (stream : Bool) (outcome : EngineOutcome) :
    Except String TransportResponse :=
  match outcome with
  | .errorResponse code msg => .ok (.json (.errorBody code msg) code)
  | out =>
    if stream then .ok (.eventStream out "text/event-stream")
    else
      match out with
      | .chatResponse p => .ok (.json (.chatBody p) 200)
      | _ => .error "assert isinstance(generator, ChatCompletionResponse)"

/-- The spec's `ErrorResult` variant: a JSON response carrying an error
body. -/
def isErrorResult : TransportResponse → Bool
  | .json (.errorBody _ _) _ => true
  | _ => false

/-- The spec's `BufferedResult` variant: a JSON response carrying a completion
payload. -/
def isBufferedResult : TransportResponse → Bool
  | .json (.chatBody _) _ => true
  | _ => false

/-- The spec's `StreamedResult` variant: a streaming response. -/
def isStreamedResult : TransportResponse → Bool
  | .eventStream _ _ => true
  | _ => false

/-- A servable model reference: base model, LoRA module, or prompt adapter. -/
inductive ModelKind where
  | base
  | lora
  | promptAdapter
deriving DecidableEq

/-- `BaseModelPath(name=..., model_path=...)` from the vLLM protocol. -/
structure BaseModelPath where
  name : String
  model_path : String
deriving DecidableEq

/-- A configured LoRA module path. -/
structure LoRAModulePath where
  name : String
  path : String
deriving DecidableEq

/-- A configured prompt-adapter path. -/
structure PromptAdapterPath where
  name : String
  local_path : String
deriving DecidableEq

/-- An entry of the model list exposed by `GET /v1/models`. -/
structure ModelPath where
  kind : ModelKind
  name : String
  path : String
deriving DecidableEq

/-- Modelled from the spec: `OpenAIServingModels.show_available_models` is
vLLM library code not present in src/.  Per the spec, the model list is the
base model paths followed by the configured LoRA module paths and the
prompt-adapter paths, each kept in the order supplied by configuration. -/
def show_available_models (base_model_paths : List BaseModelPath)
    (lora_modules : List LoRAModulePath)
    (prompt_adapters : List PromptAdapterPath) : List ModelPath :=
  base_model_paths.map (fun b => ⟨.base, b.name, b.model_path⟩) ++
    lora_modules.map (fun l => ⟨.lora, l.name, l.path⟩) ++
      prompt_adapters.map (fun a => ⟨.promptAdapter, a.name, a.local_path⟩)

/-- The model list assembled by `VLLMDeployment.list_models` (lines 104-119):
the deployment passes exactly one `BaseModelPath`, with `name` and
`model_path` both `self.engine_args.model`, together with
`self.lora_modules` and `self.prompt_adapters`. -/
def list_models (model : String) (lora_modules : List LoRAModulePath)
    (prompt_adapters : List PromptAdapterPath) : List ModelPath :=
  show_available_models [⟨model, model⟩] lora_modules prompt_adapters

/-- The deployment state observable by the model-listing handler: how many
`engine.get_model_config()` round-trips have been made, and whether
`self.openai_serving_chat` is set. -/
structure DeploymentObsState where
  metaCalls : Nat
  facadeReady : Bool
deriving DecidableEq

/-- `VLLMDeployment.list_models` (lines 104-119) as a state transformer: the
handler's first statement is `await self.engine.get_model_config()`, so every
call performs one engine metadata round-trip of its own; it never reads or
writes `self.openai_serving_chat`, and the returned list is the pure
projection `list_models`. -/
def list_modelsRun (model : String) (lora_modules : List LoRAModulePath)
    (prompt_adapters : List PromptAdapterPath) (s : DeploymentObsState) :
    DeploymentObsState × List ModelPath :=
  ({ s with metaCalls := s.metaCalls + 1 },
    list_models model lora_modules prompt_adapters)

/-!
## Cooperative-interleaving model of `create_chat_completion` (lines 58-101)

The handler is an `async def` running under an event loop: control can change
hands only at its `await` expressions.  The atomic segments of one request
are therefore:

1. from entry up to and including the test
   `if not self.openai_serving_chat:` — when the facade is unset this segment
   ends by issuing `await self.engine.get_model_config()` (one engine
   metadata call); when it is set, execution falls through to the attribute
   read in `await self.openai_serving_chat.create_chat_completion(...)`,
   capturing the current facade, and suspends on generation;
2. from the metadata call's return through the construction of
   `OpenAIServingModels` and `OpenAIServingChat`, the assignment
   `self.openai_serving_chat = ...`, and the facade read of the generation
   call (no `await` in between, so one atomic segment);
3. resumption after generation, which returns the response.

A facade built by request `i` is identified by the number `i`.
-/

/-- The program counter of one in-flight chat-completion request. -/
inductive ReqPC where
  | start
  | awaitingMeta
  | awaitingGen (facade : Nat)
  | done (facade : Nat)
deriving DecidableEq

/-- The shared deployment state plus every request's program counter:
`facade` is `self.openai_serving_chat` (`none` = `None`), `metaCalls` counts
`engine.get_model_config()` invocations made by this handler, and `reqs.get? i`
is request `i`'s position. -/
structure SysState where
  facade : Option Nat
  metaCalls : Nat
  reqs : List ReqPC
deriving DecidableEq

/-- One atomic segment of request `i` (a no-op when `i` is finished or out of
range): at `start`, an unset facade sends the request into the build branch,
issuing the metadata call; a set facade is captured for generation.  At
`awaitingMeta`, the request assigns its own facade and immediately captures it
for generation.  At `awaitingGen`, generation returns. -/
def reqStep (s : SysState) (i : Nat) : SysState :=
  match s.reqs[i]? with
  | none => s
  | some pc =>
    match pc with
    | .start =>
      match s.facade with
      | none =>
        { s with metaCalls := s.metaCalls + 1, reqs := s.reqs.set i .awaitingMeta }
      | some f => { s with reqs := s.reqs.set i (.awaitingGen f) }
    | .awaitingMeta =>
      { s with facade := some i, reqs := s.reqs.set i (.awaitingGen i) }
    | .awaitingGen f => { s with reqs := s.reqs.set i (.done f) }
    | .done _ => s

/-- Run a schedule: at each tick the event loop resumes the named request for
one atomic segment. -/
def runSched (s : SysState) (sched : List Nat) : SysState :=
  sched.foldl reqStep s

/-- A fresh deployment (`self.openai_serving_chat = None` from `__init__`)
with `n` incoming requests. -/
def initState (n : Nat) : SysState :=
  { facade := none, metaCalls := 0, reqs := List.replicate n .start }

/-- No request is inside the build branch (between the metadata call and the
facade assignment). -/
def noBuilding (s : SysState) : Prop :=
  ∀ pc ∈ s.reqs, pc ≠ ReqPC.awaitingMeta

/-- A deployment state whose facade is already built (`Ready`): facade 5,
three metadata calls made, one finished request. -/
def readyState : SysState :=
  { facade := some 5, metaCalls := 3, reqs := [ReqPC.done 5] }

theorem reqStep_eq_none {s : SysState} {i : Nat} (hg : s.reqs[i]? = none) :
    reqStep s i = s := by
  simp [reqStep, hg]

theorem reqStep_eq_start_none {s : SysState} {i : Nat}
    (hg : s.reqs[i]? = some .start) (hf : s.facade = none) :
    reqStep s i =
      { s with metaCalls := s.metaCalls + 1, reqs := s.reqs.set i .awaitingMeta } := by
  simp [reqStep, hg, hf]

theorem reqStep_eq_start_some {s : SysState} {i f : Nat}
    (hg : s.reqs[i]? = some .start) (hf : s.facade = some f) :
    reqStep s i = { s with reqs := s.reqs.set i (.awaitingGen f) } := by
  simp [reqStep, hg, hf]

theorem reqStep_eq_awaitingMeta {s : SysState} {i : Nat}
    (hg : s.reqs[i]? = some .awaitingMeta) :
    reqStep s i =
      { s with facade := some i, reqs := s.reqs.set i (.awaitingGen i) } := by
  simp [reqStep, hg]

theorem reqStep_eq_awaitingGen {s : SysState} {i f : Nat}
    (hg : s.reqs[i]? = some (.awaitingGen f)) :
    reqStep s i = { s with reqs := s.reqs.set i (.done f) } := by
  simp [reqStep, hg]

theorem reqStep_eq_done {s : SysState} {i f : Nat}
    (hg : s.reqs[i]? = some (.done f)) : reqStep s i = s := by
  simp [reqStep, hg]

theorem reqStep_facade_isSome {s : SysState} (h : s.facade.isSome)
    (i : Nat) : ((reqStep s i).facade).isSome := by
  cases hg : s.reqs[i]? with
  | none => rw [reqStep_eq_none hg]; exact h
  | some pc =>
    cases pc with
    | start =>
      cases hf : s.facade with
      | none => rw [hf] at h; simp at h
      | some f => rw [reqStep_eq_start_some hg hf]; simpa using h
    | awaitingMeta => rw [reqStep_eq_awaitingMeta hg]; simp
    | awaitingGen f => rw [reqStep_eq_awaitingGen hg]; exact h
    | done f => rw [reqStep_eq_done hg]; exact h

theorem runSched_facade_isSome {s : SysState} (h : s.facade.isSome)
    (sched : List Nat) : ((runSched s sched).facade).isSome := by
  induction sched generalizing s with
  | nil => exact h
  | cons i t ih => exact ih (reqStep_facade_isSome h i)

theorem reqStep_stable {s : SysState} {f : Nat} (hf : s.facade = some f)
    (hnb : noBuilding s) (i : Nat) :
    (reqStep s i).facade = some f ∧ (reqStep s i).metaCalls = s.metaCalls ∧
      noBuilding (reqStep s i) := by
  have hset : ∀ pc : ReqPC, pc ≠ ReqPC.awaitingMeta →
      ∀ q ∈ s.reqs.set i pc, q ≠ ReqPC.awaitingMeta := by
    intro pc hpc q hq
    rcases List.mem_or_eq_of_mem_set hq with h | h
    · exact hnb q h
    · exact h ▸ hpc
  cases hg : s.reqs[i]? with
  | none => rw [reqStep_eq_none hg]; exact ⟨hf, rfl, hnb⟩
  | some pc =>
    cases pc with
    | start =>
      rw [reqStep_eq_start_some hg hf]
      exact ⟨hf, rfl, hset _ (by simp)⟩
    | awaitingMeta =>
      exact absurd rfl (hnb _ (List.getElem?_mem hg))
    | awaitingGen g =>
      rw [reqStep_eq_awaitingGen hg]
      exact ⟨hf, rfl, hset _ (by simp)⟩
    | done g =>
      rw [reqStep_eq_done hg]
      exact ⟨hf, rfl, hnb⟩

theorem runSched_stable {s : SysState} {f : Nat} (hf : s.facade = some f)
    (hnb : noBuilding s) (sched : List Nat) :
    (runSched s sched).facade = some f ∧
      (runSched s sched).metaCalls = s.metaCalls ∧
      noBuilding (runSched s sched) := by
  induction sched generalizing s with
  | nil => exact ⟨hf, rfl, hnb⟩
  | cons i t ih =>
    obtain ⟨h1, h2, h3⟩ := reqStep_stable hf hnb i
    obtain ⟨g1, g2, g3⟩ := ih h1 h3
    exact ⟨g1, g2.trans h2, g3⟩

theorem mem_argStrings (cli : List (String × PyValue)) (x : String)
    (hx : x ∈ argStrings cli) :
    ∃ kv ∈ cli, x = "--" ++ kv.1 ∨ x = pyStrOf kv.2 := by
  rw [argStrings_eq_flatMap] at hx
  rcases List.mem_flatMap.mp hx with ⟨kv, hkv, hmem⟩
  refine ⟨kv, hkv, ?_⟩
  unfold emitArg at hmem
  split at hmem
  · simpa using Or.inl (by simpa using hmem)
  · split at hmem
    · simpa using hmem
    · simpa using Or.inl (by simpa using hmem)

theorem lookupFlag_eq_none (flag : String) (l : List String)
    (h : flag ∉ l) : lookupFlag flag l = none := by
  induction l with
  | nil => rfl
  | cons a t ih =>
    cases t with
    | nil => rfl
    | cons b u =>
      rw [lookupFlag,
        if_neg (fun he : a = flag =>
          h (by rw [← he]; exact List.mem_cons_self a (b :: u)))]
      exact ih fun hm => h (List.mem_cons_of_mem _ hm)

theorem flag_not_mem_argStrings (cli : List (String × PyValue)) (key : String)
    (hnm : key ∉ cli.map Prod.fst)
    (hnc : ∀ kv ∈ cli, pyStrOf kv.2 ≠ "--" ++ key) :
    ("--" ++ key) ∉ argStrings cli := by
  intro hx
  rcases mem_argStrings cli _ hx with ⟨kv, hkv, h | h⟩
  · exact hnm (List.mem_map.mpr ⟨kv, hkv, (flag_inj h).symm⟩)
  · exact hnc kv hkv h.symm

/-- C1 counterexample: two concurrent chat-completion requests against a
fresh deployment, interleaved so that both execute the
`if not self.openai_serving_chat:` test before either assigns the facade,
each issue their own `engine.get_model_config()` call: the completed
execution performs 2 facade-build metadata calls, not exactly 1. -/
theorem c1_single_flight_counterexample :
    (runSched (initState 2) [0, 1, 0, 1, 0, 1]).metaCalls = 2 ∧
      (runSched (initState 2) [0, 1, 0, 1, 0, 1]).reqs =
        [ReqPC.done 0, ReqPC.done 1] ∧
      (2 : Nat) ≠ 1 :=
  ⟨rfl, rfl, by decide⟩

/-- C1 (amended): each first request that observes an unset facade issues its
own engine-metadata call, so N concurrent first requests can trigger up to N
calls; exactly one call is guaranteed when the build is not raced — for every
deployment with N ≥ 1 requests, if the first request runs its three atomic
segments before any other request is scheduled, then the whole execution
performs exactly one metadata call, however the remaining requests
interleave afterwards. -/
theorem c1_single_flight_amended (n : Nat) (h : 1 ≤ n) (sched : List Nat) :
    (runSched (initState n) ([0, 0, 0] ++ sched)).metaCalls = 1 := by
  obtain ⟨m, rfl⟩ : ∃ m, n = m + 1 := ⟨n - 1, by omega⟩
  have h0 : runSched (initState (m + 1)) [0, 0, 0] =
      { facade := some 0, metaCalls := 1,
        reqs := ReqPC.done 0 :: List.replicate m ReqPC.start } := by
    simp [runSched, initState, reqStep, List.replicate_succ]
  have hsplit : runSched (initState (m + 1)) ([0, 0, 0] ++ sched) =
      runSched (runSched (initState (m + 1)) [0, 0, 0]) sched := by
    simp [runSched, List.foldl_append]
  rw [hsplit, h0]
  have hnb : noBuilding
      { facade := some 0, metaCalls := 1,
        reqs := ReqPC.done 0 :: List.replicate m ReqPC.start } := by
    intro pc hpc
    rcases List.mem_cons.mp hpc with h | h
    · simp [h]
    · simp [List.eq_of_mem_replicate h]
  exact (runSched_stable rfl hnb sched).2.1

theorem c1_single_flight_amended_witness :
    1 ≤ 2 ∧
      (runSched (initState 2) ([0, 0, 0] ++ [1, 1, 1])).metaCalls = 1 :=
  ⟨by decide, c1_single_flight_amended 2 (by decide) [1, 1, 1]⟩

/-- C2: for every entry `(key, value)` of the raw configuration mapping (keys
unique, as in a Python dict, and no entry's value string spelling the flag
token `--key`), the translated argument list contains the flag `--key`
exactly once; the entry contributes the bare flag when the value is the
boolean `True`, `None`, or the literal string `"None"`, and otherwise the
flag followed by `str(value)`. -/
theorem c2_flag_translation (cli : List (String × PyValue)) (key : String)
    (value : PyValue) (hnd : (cli.map Prod.fst).Nodup)
    (hnc : ∀ kv ∈ cli, pyStrOf kv.2 ≠ "--" ++ key)
    (hmem : (key, value) ∈ cli) :
    (argStrings cli).count ("--" ++ key) = 1 ∧
      (value = .pyBool true → emitArg key value = ["--" ++ key]) ∧
      (value = .pyNone ∨ value = .pyStr "None" →
        emitArg key value = ["--" ++ key]) ∧
      (value ≠ .pyBool true → value ≠ .pyNone → value ≠ .pyStr "None" →
        emitArg key value = ["--" ++ key, pyStrOf value]) := by
  refine ⟨count_flag_argStrings_one cli key hnd hnc
    (by simpa using List.mem_map_of_mem Prod.fst hmem), ?_, ?_, ?_⟩
  · rintro rfl; rfl
  · rintro (rfl | rfl) <;> rfl
  · intro h1 h2 h3
    cases value with
    | pyBool b =>
      cases b with
      | true => exact absurd rfl h1
      | false => rfl
    | pyStr s =>
      have hs : s ≠ "None" := fun hh => h3 (by rw [hh])
      simp [emitArg, isTrueLiteral, inNoneTuple, hs]
    | pyNone => exact absurd rfl h2
    | pyInt n => rfl

theorem c2_flag_translation_witness :
    (argStrings [("model", PyValue.pyStr "demo-7b"),
        ("trust-remote-code", PyValue.pyBool true),
        ("chat-template", PyValue.pyNone)]).count
      ("--" ++ "trust-remote-code") = 1 :=
  (c2_flag_translation _ "trust-remote-code" (PyValue.pyBool true)
    (by decide) (by decide) (by decide)).1

/-- C3: the dispatcher returns exactly one result variant per request; with
`stream=false` (the engine honouring its contract of producing a generator
only for streaming requests) the variant is `ErrorResult` or
`BufferedResult` and never `StreamedResult`; with `stream=true` and a
successful engine call it is `StreamedResult`. -/
theorem c3_result_shape (stream : Bool) (outcome : EngineOutcome)
    (hc : stream = false → ∀ cs, outcome ≠ .generator cs) :
    ∃ r, dispatchChatCompletion stream outcome = .ok r ∧
      [isErrorResult r, isBufferedResult r, isStreamedResult r].count true = 1 ∧
      (stream = false → isStreamedResult r = false) ∧
      (stream = true → (∀ c m, outcome ≠ .errorResponse c m) →
        isStreamedResult r = true) := by
  cases outcome with
  | errorResponse c m =>
    exact ⟨.json (.errorBody c m) c, rfl, rfl, fun _ => rfl,
      fun _ h => absurd rfl (h c m)⟩
  | chatResponse p =>
    cases stream with
    | false =>
      exact ⟨.json (.chatBody p) 200, rfl, rfl, fun _ => rfl,
        fun h => absurd h (by decide)⟩
    | true =>
      exact ⟨.eventStream (.chatResponse p) "text/event-stream", rfl, rfl,
        fun h => absurd h (by decide), fun _ _ => rfl⟩
  | generator cs =>
    cases stream with
    | false => exact absurd rfl (hc rfl cs)
    | true =>
      exact ⟨.eventStream (.generator cs) "text/event-stream", rfl, rfl,
        fun h => absurd h (by decide), fun _ _ => rfl⟩

theorem c3_result_shape_witness :
    ∃ r, dispatchChatCompletion false (.chatResponse "done") = .ok r ∧
      [isErrorResult r, isBufferedResult r, isStreamedResult r].count true = 1 ∧
      (false = false → isStreamedResult r = false) ∧
      (false = true →
        (∀ c m, EngineOutcome.chatResponse "done" ≠ .errorResponse c m) →
        isStreamedResult r = true) :=
  c3_result_shape false (.chatResponse "done") fun _ _ h => nomatch h

/-- C4: an engine-reported error becomes a JSON response whose body carries
the engine's code and message and whose HTTP status equals that code, with
no exception crossing the facade boundary (the dispatch yields `Except.ok`);
a buffered completion becomes a JSON body with the default status 200. -/
theorem c4_error_mapping (stream : Bool) (code : Nat)
    (message payload : String) :
    dispatchChatCompletion stream (.errorResponse code message) =
        .ok (.json (.errorBody code message) code) ∧
      dispatchChatCompletion false (.chatResponse payload) =
        .ok (.json (.chatBody payload) 200) :=
  ⟨rfl, rfl⟩

/-- C5: the model list contains exactly one base model path, whose name and
path both equal the configured model identifier, followed by the configured
LoRA module paths and the prompt-adapter paths in configured order. -/
theorem c5_model_list (model : String) (lora_modules : List LoRAModulePath)
    (prompt_adapters : List PromptAdapterPath) :
    list_models model lora_modules prompt_adapters =
        ModelPath.mk .base model model ::
          (lora_modules.map (fun l => ModelPath.mk .lora l.name l.path) ++
            prompt_adapters.map
              (fun a => ModelPath.mk .promptAdapter a.name a.local_path)) ∧
      ((list_models model lora_modules prompt_adapters).filter
          (fun p => p.kind = ModelKind.base)).length = 1 := by
  constructor
  · simp [list_models, show_available_models]
  · simp [list_models, show_available_models, List.filter_append,
      List.filter_map, Function.comp]

/-- C6: configuration translation is pure and idempotent: the state-threaded
run of `parse_vllm_args` leaves the input mapping unchanged, computes the
pure translation function, and translating again the mapping the first call
left behind yields an equal result. -/
theorem c6_translate_pure_idempotent (cli : List (String × PyValue)) :
    (parse_vllm_argsRun cli).1.cli_args = cli ∧
      (parse_vllm_argsRun cli).2 = parse_vllm_args cli ∧
      (parse_vllm_argsRun ((parse_vllm_argsRun cli).1.cli_args)).2 =
        (parse_vllm_argsRun cli).2 := by
  have h1 : (parse_vllm_argsRun cli).1.cli_args = cli :=
    foldl_translateStep_cli_args cli _
  have h2 : (parse_vllm_argsRun cli).2 = parse_vllm_args cli := by
    show parse_args
      (cli.foldl translateStep { cli_args := cli, arg_strings := [] }).arg_strings = _
    rw [foldl_translateStep_arg_strings]
    rfl
  exact ⟨h1, h2, by rw [h1]⟩

/-- C7: a raw configuration mapping without the model-identifier key fails
with a `ConfigurationError` instead of producing a configuration, and
likewise one without the response-role key (entries whose value string
itself spells the corresponding flag token are excluded, as an argument
parser would read them as that flag). -/
theorem c7_missing_required (cli : List (String × PyValue)) :
    (("model" ∉ cli.map Prod.fst) →
      (∀ kv ∈ cli, pyStrOf kv.2 ≠ "--" ++ "model") →
      parse_vllm_args cli =
        .error (ConfigurationError.missingRequired "model")) ∧
    (("response-role" ∉ cli.map Prod.fst) →
      (∀ kv ∈ cli, pyStrOf kv.2 ≠ "--" ++ "response-role") →
      ∃ e, parse_vllm_args cli = .error e) := by
  constructor
  · intro hnm hnc
    have hno : lookupFlag "--model" (argStrings cli) = none := by
      have : ("--" ++ "model") ∉ argStrings cli :=
        flag_not_mem_argStrings cli "model" hnm hnc
      exact lookupFlag_eq_none _ _ (by simpa using this)
    unfold parse_vllm_args parse_args
    rw [hno]
  · intro hnm hnc
    have hno : lookupFlag "--response-role" (argStrings cli) = none := by
      have : ("--" ++ "response-role") ∉ argStrings cli :=
        flag_not_mem_argStrings cli "response-role" hnm hnc
      exact lookupFlag_eq_none _ _ (by simpa using this)
    unfold parse_vllm_args parse_args
    rw [hno]
    cases lookupFlag "--model" (argStrings cli) with
    | none => exact ⟨_, rfl⟩
    | some m => exact ⟨_, rfl⟩

theorem c7_missing_required_witness :
    parse_vllm_args [("tensor-parallel-size", PyValue.pyInt 2)] =
      .error (ConfigurationError.missingRequired "model") :=
  (c7_missing_required [("tensor-parallel-size", PyValue.pyInt 2)]).1
    (by decide) (by decide)

/-- C8 counterexample: with the facade already initialized and the count of
further metadata calls at zero, one `GET /v1/models` call performs an engine
metadata round-trip of its own — the claimed zero additional engine calls is
violated. -/
theorem c8_pure_projection_counterexample :
    ((list_modelsRun "demo-7b" [] []
        { metaCalls := 0, facadeReady := true }).1.metaCalls = 1) ∧
      (1 : Nat) ≠ 0 :=
  ⟨rfl, by decide⟩

/-- C8 (amended): every `GET /v1/models` call performs exactly one engine
metadata round-trip of its own, whatever the facade state; apart from that
call the handler is effect-free — it leaves the facade untouched and its
response is the pure projection `list_models` of the configuration. -/
theorem c8_pure_projection_amended (model : String)
    (lora_modules : List LoRAModulePath)
    (prompt_adapters : List PromptAdapterPath) (s : DeploymentObsState) :
    (list_modelsRun model lora_modules prompt_adapters s).1.metaCalls =
        s.metaCalls + 1 ∧
      (list_modelsRun model lora_modules prompt_adapters s).1.facadeReady =
        s.facadeReady ∧
      (list_modelsRun model lora_modules prompt_adapters s).2 =
        list_models model lora_modules prompt_adapters :=
  ⟨rfl, rfl, rfl⟩

/-- C9 counterexample: with three requests, request 1 builds the facade and
completes (state Ready with facade 1), after which request 0 — which had
observed the unset facade earlier — overwrites it with its own build, and a
later request 2 is served by facade 0: the Ready facade is rebuilt and
subsequent requests are not all served by the facade that first made the
state Ready. -/
theorem c9_ready_terminal_counterexample :
    (runSched (initState 3) [0, 1, 1, 1]).facade = some 1 ∧
      (runSched (initState 3) [0, 1, 1, 1, 0]).facade = some 0 ∧
      (runSched (initState 3) [0, 1, 1, 1, 0, 0, 2, 2]).reqs =
        [ReqPC.done 0, ReqPC.done 1, ReqPC.done 0] ∧
      some (1 : Nat) ≠ some 0 :=
  ⟨rfl, rfl, rfl, by decide⟩

/-- C9 (amended): once `openai_serving_chat` is set it never reverts to
`None`; and from any state where it is set and no request is still inside
the build branch, the facade never changes again and no further facade-build
metadata calls occur — the facade can only be replaced by a request that
observed the unset state before it was first assigned. -/
theorem c9_ready_terminal_amended (s : SysState) (f : Nat) (sched : List Nat)
    (hf : s.facade = some f) :
    ((runSched s sched).facade).isSome ∧
      (noBuilding s → (runSched s sched).facade = some f ∧
        (runSched s sched).metaCalls = s.metaCalls) := by
  refine ⟨runSched_facade_isSome (by simp [hf]) sched, fun hnb => ?_⟩
  obtain ⟨h1, h2, _⟩ := runSched_stable hf hnb sched
  exact ⟨h1, h2⟩

theorem c9_ready_terminal_amended_witness :
    ((runSched readyState [0, 0]).facade).isSome ∧
      (noBuilding readyState →
        (runSched readyState [0, 0]).facade = some 5 ∧
          (runSched readyState [0, 0]).metaCalls = 3) :=
  c9_ready_terminal_amended readyState 5 [0, 0] rfl

/-- C10: a boolean `False` value is translated to the flag followed by the
string `"False"` — two argument strings; it is neither omitted from the
argument list nor treated as a bare presence-only flag. -/
theorem c10_false_flag (key : String) :
    emitArg key (.pyBool false) = ["--" ++ key, "False"] ∧
      argStrings [(key, PyValue.pyBool false)] = ["--" ++ key, "False"] :=
  ⟨rfl, rfl⟩
